import Mathlib

/-!
Verification of the fuzzy wall detector (src/src/services/fuzzy-wall-detector.py).

Shallow embedding conventions:
* Pixel coordinates, lengths, angles, confidences and scores are rationals
  (the source computes with Python floats; the values involved are exact).
* Every Euclidean distance in the source is produced by a square root and is
  immediately either compared against a nonnegative constant or clamped between
  nonnegative constants.  We therefore represent each such distance by its
  square and compare or clamp against the squared constants: for nonnegative
  x and c, sqrt x < c iff x < c^2, and the clamp min (max d lo) hi commutes
  with squaring.  In particular the thickness field of a wall stores the
  square of the pixel thickness (so the source range [3, 25] becomes
  [9, 625] and [4, 25] becomes [16, 625]).
* The grayscale buffer is consumed only through two local tests that call into
  OpenCV (edge density of a neighborhood, brightness of a sampled pixel).
  Those tests are abstracted as Boolean oracles passed to the functions that
  use them; all quantified statements hold for every oracle.
-/

namespace FuzzyWallDetector

/-- Provenance tag of a wall: the source marks raw Hough candidates with
the string tag for fuzzy Canny detection (line 88) and consolidated walls
with the consolidated tag (line 981); only equality with the consolidated
tag is ever tested (line 1064), so the two tags are an enumeration. -/
inductive WallSource where
  | fuzzy_canny : WallSource
  | consolidated : WallSource
deriving DecidableEq

/-- A detected wall segment: the dictionary built in detect_walls_fuzzy and
enriched by the consolidation stages.  The `structural_score` key is absent
until apply_structural_focus writes it; the source reads it with
`.get` with default 0, so absence is modelled by the default 0. -/
structure Wall where
  wstart : ℚ × ℚ
  wend : ℚ × ℚ
  length : ℚ
  angle : ℚ
  wallType : String
  confidence : ℚ
  is_sketchy : Bool
  thicknessSq : ℚ
  source : WallSource
  structural_score : ℚ := 0
deriving DecidableEq

/-- A detected opening (door, window or arch): the dictionaries built by the
opening detectors.  Only the keys read by the deduplicator and the caps are
modelled: `position` and `confidence` (with `kind` standing for the `type`
tag so distinct detections stay distinct values). -/
structure Opening where
  kind : String
  position : ℚ × ℚ
  confidence : ℚ
deriving DecidableEq

/-! ## Angle classification (classify_angle_fuzzy, lines 802-821) -/

/-- Source line 805: `is_horizontal = (abs(angle) < 15 or abs(angle) > 165)`. -/
def is_horizontal (angle : ℚ) : Bool :=
  decide (|angle| < 15) || decide (|angle| > 165)

/-- Source line 806: `is_vertical = (75 < abs(angle) < 105)`. -/
def is_vertical (angle : ℚ) : Bool :=
  decide (75 < |angle|) && decide (|angle| < 105)

/-- Source line 807: `is_diagonal = (35 < abs(angle) < 55) or (125 < abs(angle) < 145)`. -/
def is_diagonal (angle : ℚ) : Bool :=
  (decide (35 < |angle|) && decide (|angle| < 55)) ||
    (decide (125 < |angle|) && decide (|angle| < 145))

/-- Deviation used in the horizontal branch, line 812:
`min(abs(angle), abs(abs(angle) - 180))`. -/
def devHorizontal (angle : ℚ) : ℚ := min |angle| |(|angle| - 180)|

/-- Deviation used in the vertical branch, line 815: `abs(abs(angle) - 90)`. -/
def devVertical (angle : ℚ) : ℚ := |(|angle| - 90)|

/-- Deviation used in the diagonal branch, line 818:
`min(abs(abs(angle) - 45), abs(abs(angle) - 135))`. -/
def devDiagonal (angle : ℚ) : ℚ := min |(|angle| - 45)| |(|angle| - 135)|

/-- The confidence chain of classify_angle_fuzzy, lines 810-819. -/
def angle_confidence (angle : ℚ) : ℚ :=
  if is_horizontal angle then max (1/2) (1 - devHorizontal angle / 15)
  else if is_vertical angle then max (1/2) (1 - devVertical angle / 15)
  else if is_diagonal angle then max (2/5) (1 - devDiagonal angle / 20)
  else 1

/-- Return tuple of classify_angle_fuzzy, line 821. -/
def classify_angle_fuzzy (angle : ℚ) : Bool × Bool × Bool × ℚ :=
  (is_horizontal angle, is_vertical angle, is_diagonal angle, angle_confidence angle)

/-- Number of orientation flags set by classify_angle_fuzzy. -/
def orientation_count (angle : ℚ) : ℕ :=
  (if is_horizontal angle then 1 else 0) + (if is_vertical angle then 1 else 0) +
    (if is_diagonal angle then 1 else 0)

/-- The confidence the spec claims: linear from 1.0 at the band center down to
the floor exactly at the band edge (0.5 at 15 degrees for horizontal and
vertical, 0.4 at 10 degrees for diagonal).  Modelled from the claim text, to
be compared with angle_confidence. -/
def specAngleConfidence (angle : ℚ) : ℚ :=
  if is_horizontal angle then 1 - devHorizontal angle * (1/30)
  else if is_vertical angle then 1 - devVertical angle * (1/30)
  else if is_diagonal angle then 1 - devDiagonal angle * (3/50)
  else 1

lemma horiz_vert_exclusive (a : ℚ) :
    ¬(is_horizontal a = true ∧ is_vertical a = true) := by
  simp only [is_horizontal, is_vertical, Bool.or_eq_true, Bool.and_eq_true,
    decide_eq_true_eq]
  rintro ⟨h | h, h75, h105⟩ <;> linarith

lemma horiz_diag_exclusive (a : ℚ) :
    ¬(is_horizontal a = true ∧ is_diagonal a = true) := by
  simp only [is_horizontal, is_diagonal, Bool.or_eq_true, Bool.and_eq_true,
    decide_eq_true_eq]
  rintro ⟨h | h, ⟨h1, h2⟩ | ⟨h1, h2⟩⟩ <;> linarith

lemma vert_diag_exclusive (a : ℚ) :
    ¬(is_vertical a = true ∧ is_diagonal a = true) := by
  simp only [is_vertical, is_diagonal, Bool.or_eq_true, Bool.and_eq_true,
    decide_eq_true_eq]
  rintro ⟨⟨h75, h105⟩, ⟨h1, h2⟩ | ⟨h1, h2⟩⟩ <;> linarith

/-- C5: for every angle, at most one of the three orientation predicates
computed by classify_angle_fuzzy is true (in particular for every angle in
the source range [-180, 180]), so no segment is tagged with more than one
orientation. -/
theorem classify_angle_fuzzy_exclusive (a : ℚ) : orientation_count a ≤ 1 := by
  unfold orientation_count
  by_cases hh : is_horizontal a = true
  · by_cases hv : is_vertical a = true
    · exact absurd ⟨hh, hv⟩ (horiz_vert_exclusive a)
    · by_cases hd : is_diagonal a = true
      · exact absurd ⟨hh, hd⟩ (horiz_diag_exclusive a)
      · simp [hh, hv, hd]
  · by_cases hv : is_vertical a = true
    · by_cases hd : is_diagonal a = true
      · exact absurd ⟨hv, hd⟩ (vert_diag_exclusive a)
      · simp [hh, hv, hd]
    · by_cases hd : is_diagonal a = true <;> simp [hh, hv, hd]

/-- C3 counterexample: at angle 10 (inside the horizontal band, deviation 10)
the code computes confidence max(0.5, 1 - 10/15) = 0.5, while the claimed
linear-to-the-band-edge profile gives 1 - 10/30 = 2/3; so the confidence does
not decrease linearly all the way to the band edge. -/
theorem angle_confidence_not_linear_to_edge :
    angle_confidence 10 = 1/2 ∧ specAngleConfidence 10 = 2/3 ∧
      angle_confidence 10 ≠ specAngleConfidence 10 := by
  refine ⟨by norm_num [angle_confidence, is_horizontal, devHorizontal],
    by norm_num [specAngleConfidence, is_horizontal, devHorizontal], ?_⟩
  norm_num [angle_confidence, specAngleConfidence, is_horizontal, devHorizontal]

/-- C3 amended: inside each band the confidence equals
max(floor, 1 - deviation/slope) with slope 15 for horizontal and vertical
(floor 0.5) and slope 20 for diagonal (floor 0.4).  Consequently the 0.5
floor is reached already at 7.5 degrees deviation for horizontal and
vertical, and on the diagonal band the confidence always stays strictly
above 0.5, so the 0.4 floor is never attained at the 10-degree band edge. -/
theorem angle_confidence_formula (a : ℚ) :
    (is_horizontal a = true →
      angle_confidence a = max (1/2) (1 - devHorizontal a / 15) ∧
        (15/2 ≤ devHorizontal a → angle_confidence a = 1/2)) ∧
    (is_vertical a = true →
      angle_confidence a = max (1/2) (1 - devVertical a / 15) ∧
        (15/2 ≤ devVertical a → angle_confidence a = 1/2)) ∧
    (is_diagonal a = true →
      angle_confidence a = max (2/5) (1 - devDiagonal a / 20) ∧
        1/2 < angle_confidence a) := by
  refine ⟨fun hh => ?_, fun hv => ?_, fun hd => ?_⟩
  · rw [angle_confidence, if_pos hh]
    refine ⟨rfl, fun hdev => ?_⟩
    rw [max_eq_left (by linarith)]
  · have hh : ¬ is_horizontal a = true := fun h => horiz_vert_exclusive a ⟨h, hv⟩
    rw [angle_confidence, if_neg hh, if_pos hv]
    refine ⟨rfl, fun hdev => ?_⟩
    rw [max_eq_left (by linarith)]
  · have hh : ¬ is_horizontal a = true := fun h => horiz_diag_exclusive a ⟨h, hd⟩
    have hv : ¬ is_vertical a = true := fun h => vert_diag_exclusive a ⟨h, hd⟩
    rw [angle_confidence, if_neg hh, if_neg hv, if_pos hd]
    refine ⟨rfl, ?_⟩
    have hlt : devDiagonal a < 10 := by
      have := hd
      simp only [is_diagonal, Bool.or_eq_true, Bool.and_eq_true,
        decide_eq_true_eq] at this
      unfold devDiagonal
      rcases this with ⟨h1, h2⟩ | ⟨h1, h2⟩
      · calc min |(|a| - 45)| |(|a| - 135)| ≤ |(|a| - 45)| := min_le_left _ _
          _ < 10 := abs_lt.mpr ⟨by linarith, by linarith⟩
      · calc min |(|a| - 45)| |(|a| - 135)| ≤ |(|a| - 135)| := min_le_right _ _
          _ < 10 := abs_lt.mpr ⟨by linarith, by linarith⟩
    calc (1/2 : ℚ) < 1 - devDiagonal a / 20 := by linarith
      _ ≤ max (2/5) (1 - devDiagonal a / 20) := le_max_right _ _

/-- Witness for angle_confidence_formula: at angle 100 the vertical branch
applies with deviation 10 >= 7.5, giving confidence 1/2; at angle 48 the
diagonal branch applies. -/
theorem angle_confidence_formula_witness :
    angle_confidence 100 = 1/2 ∧ 1/2 < angle_confidence 48 := by
  constructor
  · exact ((angle_confidence_formula 100).2.1 (by decide)).2
      (by norm_num [devVertical])
  · exact ((angle_confidence_formula 48).2.2 (by decide)).2

/-! ## Midpoint distances and the grouping predicate (lines 922-958) -/

/-- Midpoint of a wall segment, as computed inline at lines 953-956. -/
def midpoint (w : Wall) : ℚ × ℚ :=
  ((w.wstart.1 + w.wend.1) / 2, (w.wstart.2 + w.wend.2) / 2)

/-- Square of line_to_line_distance (lines 950-958): Euclidean distance
between the two segment midpoints. -/
def line_to_line_distanceSq (l1 l2 : Wall) : ℚ :=
  ((midpoint l2).1 - (midpoint l1).1)^2 + ((midpoint l2).2 - (midpoint l1).2)^2

/-- Square of wall_distance (lines 1184-1192): the same midpoint-distance
formula, defined as a separate method in the source. -/
def wall_distanceSq (w1 w2 : Wall) : ℚ :=
  ((midpoint w2).1 - (midpoint w1).1)^2 + ((midpoint w2).2 - (midpoint w1).2)^2

/-- Angle difference with wraparound, lines 926-931. -/
def wrapAngleDiff (a1 a2 : ℚ) : ℚ :=
  let d := |a1 - a2|
  if d > 180 then 360 - d else d

/-- Scale-adaptive proximity threshold, lines 939-946. -/
def groupingThreshold (l1 l2 : Wall) : ℚ :=
  let avg := (l1.length + l2.length) / 2
  if avg > 500 then 50 else if avg > 200 then 30 else 15

/-- are_parallel_and_close, lines 922-948.  The final test of line 948 is
`1 < distance < max_thickness`; with the squared-distance representation it
becomes `1 < distSq and distSq < threshold^2`. -/
def are_parallel_and_close (l1 l2 : Wall) : Bool :=
  if wrapAngleDiff l1.angle l2.angle > 15 then false
  else
    decide (1 < line_to_line_distanceSq l1 l2) &&
      decide (line_to_line_distanceSq l1 l2 < (groupingThreshold l1 l2) ^ 2)

/-- The parallel-and-close predicate as the claim states it: angle difference
(with wraparound) within 15 degrees and midpoint distance below the
scale-adaptive threshold.  Modelled from the claim text, to be compared with
are_parallel_and_close; distances squared as throughout. -/
def specParallelAndClose (l1 l2 : Wall) : Prop :=
  wrapAngleDiff l1.angle l2.angle ≤ 15 ∧
    line_to_line_distanceSq l1 l2 < (groupingThreshold l1 l2) ^ 2

/-- C6 amended: the grouping predicate holds exactly when the wraparound
angle difference is within 15 degrees AND the midpoint distance is strictly
greater than 1 px AND below the scale-adaptive threshold (50/30/15 px by
average length).  The claim omitted the strict lower bound 1 px. -/
theorem are_parallel_and_close_iff (l1 l2 : Wall) :
    are_parallel_and_close l1 l2 = true ↔
      wrapAngleDiff l1.angle l2.angle ≤ 15 ∧
        1 < line_to_line_distanceSq l1 l2 ∧
        line_to_line_distanceSq l1 l2 < (groupingThreshold l1 l2) ^ 2 := by
  unfold are_parallel_and_close
  split_ifs with h
  · simp only [Bool.false_eq_true, false_iff]
    rintro ⟨h15, -, -⟩
    linarith
  · simp only [Bool.and_eq_true, decide_eq_true_eq]
    exact ⟨fun ⟨h1, h2⟩ => ⟨le_of_not_lt h, h1, h2⟩, fun ⟨_, h1, h2⟩ => ⟨h1, h2⟩⟩

/-- A concrete horizontal line used in counterexamples. -/
def cexLine : Wall :=
  { wstart := (0, 0), wend := (100, 0), length := 100, angle := 0,
    wallType := "horizontal", confidence := 1, is_sketchy := false,
    thicknessSq := 36, source := WallSource.fuzzy_canny }

/-- C6 counterexample: two coincident segments (midpoint distance 0) satisfy
the predicate as the claim states it, but are_parallel_and_close rejects
them because of the lower bound `1 < distance` at line 948. -/
theorem are_parallel_and_close_cex :
    are_parallel_and_close cexLine cexLine = false ∧
      specParallelAndClose cexLine cexLine := by
  constructor
  · norm_num [are_parallel_and_close, wrapAngleDiff, line_to_line_distanceSq,
      midpoint, groupingThreshold, cexLine]
  · unfold specParallelAndClose
    norm_num [wrapAngleDiff, line_to_line_distanceSq, midpoint,
      groupingThreshold, cexLine]

/-! ## Opening deduplication (filter_duplicate_doors, lines 766-792) -/

/-- Square of the proximity test at line 781: `distance < 30` becomes
squared distance < 900. -/
def openingsClose (d e : Opening) : Bool :=
  decide ((d.position.1 - e.position.1) ^ 2 + (d.position.2 - e.position.2) ^ 2 < 900)

/-- The inner for-loop of filter_duplicate_doors (lines 776-787): scan the
retained list in order for the first member within 30 px of the new
detection.  When one is found, the new detection replaces it (the member is
removed and the new detection appended at the end) if it has strictly higher
confidence, else the list is unchanged; the result is none when no member is
close (the detection is not a duplicate). -/
def replaceClose (d : Opening) : List Opening → Option (List Opening)
  | [] => none
  | e :: rest =>
    if openingsClose d e then
      some (if d.confidence > e.confidence then rest ++ [d] else e :: rest)
    else
      match replaceClose d rest with
      | some l => some (e :: l)
      | none => none

/-- One iteration of the outer for-loop of filter_duplicate_doors: append the
detection when it is not a duplicate, else apply the replacement rule. -/
def dedupStep (acc : List Opening) (d : Opening) : List Opening :=
  match replaceClose d acc with
  | none => acc ++ [d]
  | some l => l

/-- filter_duplicate_doors, lines 766-792 (also reused verbatim for windows
and arches at lines 794-800). -/
def filter_duplicate_doors (doors : List Opening) : List Opening :=
  if doors.length ≤ 1 then doors else doors.foldl dedupStep []

lemma openingsClose_symm (a b : Opening) : openingsClose a b = openingsClose b a := by
  unfold openingsClose
  rw [show (a.position.1 - b.position.1) ^ 2 + (a.position.2 - b.position.2) ^ 2
      = (b.position.1 - a.position.1) ^ 2 + (b.position.2 - a.position.2) ^ 2 by ring]

lemma replaceClose_eq_none (d : Opening) (l : List Opening)
    (h : ∀ e ∈ l, openingsClose d e = false) : replaceClose d l = none := by
  induction l with
  | nil => rfl
  | cons e rest ih =>
    unfold replaceClose
    rw [h e (List.mem_cons_self e rest),
      ih fun x hx => h x (List.mem_cons_of_mem e hx)]
    simp

lemma foldl_dedupStep_of_pairwise_far (rest : List Opening) :
    ∀ acc : List Opening,
      rest.Pairwise (fun a b => openingsClose a b = false) →
      (∀ d ∈ rest, ∀ e ∈ acc, openingsClose d e = false) →
      rest.foldl dedupStep acc = acc ++ rest := by
  induction rest with
  | nil => intro acc _ _; simp
  | cons d rest ih =>
    intro acc hp hfar
    rw [List.foldl_cons]
    have hstep : dedupStep acc d = acc ++ [d] := by
      unfold dedupStep
      rw [replaceClose_eq_none d acc (hfar d (List.mem_cons_self d rest))]
    rw [hstep, ih (acc ++ [d]) hp.of_cons ?_]
    · simp
    · intro x hx e he
      rcases List.mem_append.mp he with he | he
      · exact hfar x (List.mem_cons_of_mem d hx) e he
      · have hed : e = d := by simpa using he
        subst hed
        rw [openingsClose_symm]
        exact (List.pairwise_cons.mp hp).1 x hx

/-- C2 amended: the deduplicator is the identity on every list of openings
whose positions are pairwise at least 30 px apart; in particular any such
list is a fixed point.  On general inputs the claim fails (see the
counterexample): a higher-confidence replacement can leave two openings
within 30 px of each other in the output, and re-running the filter then
changes it. -/
theorem filter_duplicate_doors_id_of_separated (doors : List Opening)
    (h : doors.Pairwise fun a b => openingsClose a b = false) :
    filter_duplicate_doors doors = doors := by
  unfold filter_duplicate_doors
  split_ifs with hlen
  · rfl
  · simpa using foldl_dedupStep_of_pairwise_far doors [] h (by simp)

/-- Witness for filter_duplicate_doors_id_of_separated on two openings
100 px apart. -/
theorem filter_duplicate_doors_id_witness :
    filter_duplicate_doors
        [{ kind := "opening", position := (0, 0), confidence := 1/2 },
         { kind := "opening", position := (100, 0), confidence := 1/2 }] =
      [{ kind := "opening", position := (0, 0), confidence := 1/2 },
       { kind := "opening", position := (100, 0), confidence := 1/2 }] :=
  filter_duplicate_doors_id_of_separated _
    (by norm_num [List.pairwise_cons, openingsClose])

/-- Opening at x = 0 with confidence 0.5. -/
def opA : Opening := { kind := "opening", position := (0, 0), confidence := 1/2 }

/-- Opening at x = 40 with confidence 0.5. -/
def opB : Opening := { kind := "opening", position := (40, 0), confidence := 1/2 }

/-- Opening at x = 20 with confidence 0.9. -/
def opC : Opening := { kind := "opening", position := (20, 0), confidence := 9/10 }

/-- C2 counterexample: on [opA, opB, opC], the high-confidence opC replaces
opA (20 px away) but is never compared with opB, so the output [opB, opC]
contains two openings 20 px apart; running the filter again collapses it
to [opC], so the deduplicator is not a fixed point on its own output. -/
theorem filter_duplicate_doors_not_fixed_point :
    filter_duplicate_doors [opA, opB, opC] = [opB, opC] ∧
      openingsClose opB opC = true ∧
      filter_duplicate_doors (filter_duplicate_doors [opA, opB, opC]) ≠
        filter_duplicate_doors [opA, opB, opC] := by
  have h1 : filter_duplicate_doors [opA, opB, opC] = [opB, opC] := by
    norm_num [filter_duplicate_doors, dedupStep, replaceClose, openingsClose,
      opA, opB, opC]
  have h2 : filter_duplicate_doors [opB, opC] = [opC] := by
    norm_num [filter_duplicate_doors, dedupStep, replaceClose, openingsClose,
      opA, opB, opC]
  refine ⟨h1, by norm_num [openingsClose, opB, opC], ?_⟩
  rw [h1, h2]
  simp [opA, opB, opC]

/-! ## Point-to-line distance and the shadowed near-wall helpers
(lines 676-725) -/

/-- Coefficient A = y2 - y1 of the line formula, line 718. -/
def lineA (w : Wall) : ℚ := w.wend.2 - w.wstart.2

/-- Coefficient B = x1 - x2 of the line formula, line 719. -/
def lineB (w : Wall) : ℚ := w.wstart.1 - w.wend.1

/-- Coefficient C = x2*y1 - x1*y2 of the line formula, line 720. -/
def lineC (w : Wall) : ℚ := w.wend.1 * w.wstart.2 - w.wstart.1 * w.wend.2

/-- The comparison `point_to_line_distance(px, py, wall) < tol`
(lines 712-725).  The source returns infinity when A = B = 0, so the
comparison is false there; otherwise the distance is
|A px + B py + C| / sqrt(A^2 + B^2), and for the positive tolerances used at
every call site (20, 10, 15) the comparison equals the squared form below. -/
def point_to_line_distance_lt (px py : ℚ) (w : Wall) (tol : ℚ) : Bool :=
  if lineA w = 0 ∧ lineB w = 0 then false
  else
    decide ((lineA w * px + lineB w * py + lineC w) ^ 2 <
      tol ^ 2 * (lineA w ^ 2 + lineB w ^ 2))

/-- The first is_near_wall definition (lines 676-686): fixed 20-px bound.
In the Python class body it is replaced by the later definition with the
same name, so no call site can reach it. -/
def is_near_wall_first (point : ℚ × ℚ) (walls : List Wall) : Bool :=
  walls.any fun w => point_to_line_distance_lt point.1 point.2 w 20

/-- is_on_wall (lines 688-698): 10-px bound. -/
def is_on_wall (point : ℚ × ℚ) (walls : List Wall) : Bool :=
  walls.any fun w => point_to_line_distance_lt point.1 point.2 w 10

/-- The second is_near_wall definition (lines 700-710): tolerance parameter
defaulting to 15.  This is the binding that survives in the class
dictionary. -/
def is_near_wall (point : ℚ × ℚ) (walls : List Wall) (tolerance : ℚ := 15) : Bool :=
  walls.any fun w => point_to_line_distance_lt point.1 point.2 w tolerance

/-- The proximity check of find_door_symbols, line 367:
`self.is_near_wall([x + w//2, y + h//2], walls)` with the tolerance omitted,
hence resolving to the second definition and its default of 15. -/
def find_door_symbols_near_check (center : ℚ × ℚ) (walls : List Wall) : Bool :=
  is_near_wall center walls

/-- C9: every call to is_near_wall that omits the tolerance - in particular
the door-symbol proximity check - uses the 15-px bound of the second,
shadowing definition; the point (5, 17) at distance 17 from the wall
(0,0)-(100,0) separates it from the shadowed first definition with its
20-px bound. -/
theorem is_near_wall_shadowing :
    (∀ (p : ℚ × ℚ) (walls : List Wall),
        find_door_symbols_near_check p walls =
          walls.any fun w => point_to_line_distance_lt p.1 p.2 w 15) ∧
      is_near_wall_first (5, 17) [cexLine] = true ∧
      find_door_symbols_near_check (5, 17) [cexLine] = false := by
  refine ⟨fun p walls => rfl, ?_, ?_⟩
  · norm_num [is_near_wall_first, point_to_line_distance_lt, lineA, lineB,
      lineC, cexLine]
  · norm_num [find_door_symbols_near_check, is_near_wall,
      point_to_line_distance_lt, lineA, lineB, lineC, cexLine]

lemma degenerate_iff (w : Wall) :
    (lineA w = 0 ∧ lineB w = 0) ↔ w.wstart = w.wend := by
  unfold lineA lineB
  rw [Prod.ext_iff]
  constructor <;> rintro ⟨h1, h2⟩ <;> constructor <;> linarith

/-! ## Thickness estimation (lines 823-861 and 987-1003) -/

/-- estimate_thickness (lines 823-861), squared representation.  The
degeneracy test at line 827 compares sqrt(dx^2 + dy^2) with 0, i.e.
dx^2 + dy^2 = 0, and returns the default 6.0 (squared: 36).  The sampling
loop walks offsets 3..19; whether the pixel sampled at a given offset lies
inside the image and has intensity above 200 (lines 849-854) is the
grayscale-buffer test abstracted by the oracle `bright`; the first bright
offset yields thickness offset*2 (line 855), else the default 6.0 stands.
The final clamp min(max(t, 3), 25) of line 861 becomes min(max(t^2, 9), 625)
on squares. -/
def estimate_thicknessSq (x1 y1 x2 y2 : ℚ) (bright : ℕ → Bool) : ℚ :=
  if (x2 - x1) ^ 2 + (y2 - y1) ^ 2 = 0 then 36
  else
    let t : ℚ :=
      match (List.range' 3 17).find? bright with
      | some o => 2 * o
      | none => 6
    min (max (t ^ 2) 9) 625

/-- All pairwise midpoint distances (squared) of a group, in the double-loop
order of lines 993-997. -/
def pairSqDists : List Wall → List ℚ
  | [] => []
  | w :: ws => ws.map (line_to_line_distanceSq w) ++ pairSqDists ws

/-- Maximum of the collected pairwise distances (`max(distances)`,
line 1000); 0 for the empty list, which calculate_group_thickness never
reaches. -/
def maxPairSqDist (g : List Wall) : ℚ :=
  match pairSqDists g with
  | [] => 0
  | d :: ds => ds.foldl max d

/-- calculate_group_thickness (lines 987-1003), squared representation:
groups of fewer than 2 lines get the default 6.0 (squared: 36); otherwise
the maximum pairwise midpoint distance is clamped to [4, 25]
([16, 625] on squares). -/
def calculate_group_thicknessSq (g : List Wall) : ℚ :=
  if g.length < 2 then 36
  else
    match pairSqDists g with
    | [] => 36
    | d :: ds => min (max (ds.foldl max d) 16) 625

lemma nine_le_clamp (q : ℚ) : 9 ≤ min (max (q ^ 2) 9) 625 ∧ min (max (q ^ 2) 9) 625 ≤ 625 :=
  ⟨le_min (le_trans (by norm_num) (le_max_right _ _)) (by norm_num),
    min_le_right _ _⟩

/-- C7: the consolidated thickness of a group of two or more segments equals
the maximum pairwise midpoint distance clamped to [4, 25] (squares:
[16, 625]), and every thickness the detector produces - the group value or
the raw estimate of estimate_thickness, for any oracle - lies in [3, 25]
(squares: [9, 625]). -/
theorem thickness_bounds :
    (∀ g : List Wall, 2 ≤ g.length →
        calculate_group_thicknessSq g = min (max (maxPairSqDist g) 16) 625 ∧
          16 ≤ calculate_group_thicknessSq g ∧
          calculate_group_thicknessSq g ≤ 625) ∧
      (∀ g : List Wall,
        9 ≤ calculate_group_thicknessSq g ∧ calculate_group_thicknessSq g ≤ 625) ∧
      ∀ (x1 y1 x2 y2 : ℚ) (bright : ℕ → Bool),
        9 ≤ estimate_thicknessSq x1 y1 x2 y2 bright ∧
          estimate_thicknessSq x1 y1 x2 y2 bright ≤ 625 := by
  have hmain : ∀ g : List Wall, 2 ≤ g.length →
      calculate_group_thicknessSq g = min (max (maxPairSqDist g) 16) 625 ∧
        16 ≤ calculate_group_thicknessSq g ∧ calculate_group_thicknessSq g ≤ 625 := by
    intro g hg
    obtain ⟨a, g', rfl⟩ : ∃ a g', g = a :: g' := by
      cases g with
      | nil => simp at hg
      | cons a g' => exact ⟨a, g', rfl⟩
    obtain ⟨b, g'', rfl⟩ : ∃ b g'', g' = b :: g'' := by
      cases g' with
      | nil => simp at hg
      | cons b g'' => exact ⟨b, g'', rfl⟩
    have hform : calculate_group_thicknessSq (a :: b :: g'') =
        min (max (maxPairSqDist (a :: b :: g'')) 16) 625 := by
      simp only [calculate_group_thicknessSq, maxPairSqDist, pairSqDists,
        List.map_cons, List.cons_append, List.length_cons]
      norm_num
    refine ⟨hform, ?_, ?_⟩
    · rw [hform]
      exact le_min (le_max_right _ _) (by norm_num)
    · rw [hform]
      exact min_le_right _ _
  refine ⟨hmain, fun g => ?_, fun x1 y1 x2 y2 bright => ?_⟩
  · unfold calculate_group_thicknessSq
    split_ifs
    · norm_num
    · cases hpd : pairSqDists g with
      | nil => norm_num
      | cons d ds =>
        refine ⟨le_min (le_trans (by norm_num) (le_max_right _ _)) (by norm_num),
          min_le_right _ _⟩
  · unfold estimate_thicknessSq
    split_ifs
    · norm_num
    · exact nine_le_clamp _

/-- A second concrete line, parallel to cexLine and 10 px above it. -/
def cexLine2 : Wall :=
  { wstart := (0, 10), wend := (100, 10), length := 100, angle := 0,
    wallType := "horizontal", confidence := 1, is_sketchy := false,
    thicknessSq := 36, source := WallSource.fuzzy_canny }

/-- Witness for thickness_bounds: the two-line group cexLine, cexLine2 with
midpoints 10 px apart gets consolidated thickness 10 (squared: 100). -/
theorem thickness_bounds_witness :
    calculate_group_thicknessSq [cexLine, cexLine2] = 100 := by
  have h := (thickness_bounds.1 [cexLine, cexLine2] (by norm_num)).1
  rw [h]
  norm_num [maxPairSqDist, pairSqDists, line_to_line_distanceSq, midpoint,
    cexLine, cexLine2]

/-- C10: the A = B = 0 guard of point_to_line_distance fires exactly for
degenerate walls (start = end); for those the returned infinity makes every
proximity comparison false, so is_near_wall and is_on_wall never accept a
point against a degenerate wall, and estimate_thickness returns the default
6.0 (squared: 36) for a zero-length line without dividing by zero. -/
theorem degenerate_wall_safe :
    (∀ w : Wall, (lineA w = 0 ∧ lineB w = 0) ↔ w.wstart = w.wend) ∧
      ∀ w : Wall, w.wstart = w.wend →
        (∀ px py tol : ℚ, point_to_line_distance_lt px py w tol = false) ∧
          (∀ p : ℚ × ℚ, is_near_wall p [w] = false ∧ is_on_wall p [w] = false) ∧
          ∀ bright : ℕ → Bool,
            estimate_thicknessSq w.wstart.1 w.wstart.2 w.wend.1 w.wend.2 bright = 36 := by
  refine ⟨degenerate_iff, fun w hdeg => ?_⟩
  have hlt : ∀ px py tol : ℚ, point_to_line_distance_lt px py w tol = false := by
    intro px py tol
    unfold point_to_line_distance_lt
    rw [if_pos ((degenerate_iff w).mpr hdeg)]
  refine ⟨hlt, fun p => ⟨?_, ?_⟩, fun bright => ?_⟩
  · simp [is_near_wall, hlt]
  · simp [is_on_wall, hlt]
  · unfold estimate_thicknessSq
    rw [if_pos]
    rw [hdeg]
    ring

/-- A degenerate (zero-length) wall used as witness input. -/
def cexDegenerate : Wall :=
  { wstart := (7, 7), wend := (7, 7), length := 0, angle := 0,
    wallType := "horizontal", confidence := 1, is_sketchy := false,
    thicknessSq := 36, source := WallSource.fuzzy_canny }

/-- Witness for degenerate_wall_safe at the concrete degenerate wall with
both endpoints (7, 7). -/
theorem degenerate_wall_safe_witness :
    point_to_line_distance_lt 3 4 cexDegenerate 20 = false ∧
      is_near_wall (3, 4) [cexDegenerate] = false ∧
      estimate_thicknessSq 7 7 7 7 (fun _ => true) = 36 := by
  have h := degenerate_wall_safe.2 cexDegenerate (by norm_num [cexDegenerate])
  refine ⟨h.1 3 4 20, (h.2.1 (3, 4)).1, ?_⟩
  have h36 := h.2.2 fun _ => true
  simpa [cexDegenerate] using h36

/-! ## Structural scoring, the adaptive wall cap and the opening caps
(lines 130-206 and 1009-1116) -/

/-- is_perimeter_wall (lines 1077-1090): an endpoint within 50 px of the
left/top image edge and length above 200. -/
def is_perimeter_wall (w : Wall) : Bool :=
  (decide (w.wstart.1 < 50) || decide (w.wend.1 < 50) ||
      decide (w.wstart.2 < 50) || decide (w.wend.2 < 50)) &&
    decide (w.length > 200)

/-- calculate_structural_importance (lines 1038-1075).  Thickness thresholds
15, 8, 4 become 225, 64, 16 on squared thickness. -/
def calculate_structural_importance (w : Wall) : ℚ :=
  let s1 : ℚ :=
    if w.length > 300 then 2/5
    else if w.length > 150 then 3/10
    else if w.length > 100 then 1/5
    else if w.length > 50 then 1/10
    else 0
  let s2 : ℚ :=
    if w.thicknessSq > 225 then 1/5
    else if w.thicknessSq > 64 then 3/20
    else if w.thicknessSq > 16 then 1/10
    else 0
  let s3 : ℚ := if w.source = WallSource.consolidated then 1/4 else 0
  let s4 : ℚ := if is_perimeter_wall w then 1/5 else 0
  min (s1 + s2 + s3 + s4 + w.confidence * (1/10)) 1

/-- calculate_realistic_wall_count (lines 1092-1116): 0 for the empty list,
otherwise max(min(high + medium // 2, base), 15) with base 35/30/25 chosen
by average wall length. -/
def calculate_realistic_wall_count (walls : List Wall) : ℕ :=
  if walls = [] then 0
  else
    let avg_wall_length : ℚ := (walls.map Wall.length).sum / walls.length
    let base_count : ℕ :=
      if avg_wall_length > 400 then 35
      else if avg_wall_length > 200 then 30
      else 25
    let high := (walls.filter fun w => decide (w.structural_score > 7/10)).length
    let medium := (walls.filter fun w =>
      decide (4/10 < w.structural_score) && decide (w.structural_score ≤ 7/10)).length
    max (min (high + medium / 2) base_count) 15

/-- Stable descending sort by structural score (line 1028; Python list.sort
with reverse=True is stable, matching insertion sort under the reflexive
descending relation). -/
def sortByScoreDesc (walls : List Wall) : List Wall :=
  walls.insertionSort fun a b => b.structural_score ≤ a.structural_score

/-- Lines 1019-1025 of apply_structural_focus: every wall gets its
structural_score key written, and the walls with score above 0.3 are
kept. -/
def structuralSurvivors (walls : List Wall) : List Wall :=
  (walls.map fun w =>
      { w with structural_score := calculate_structural_importance w }).filter
    fun w => decide (w.structural_score > 3/10)

/-- The adaptive cap computed by apply_structural_focus at line 1031:
calculate_realistic_wall_count on the sorted surviving walls. -/
def adaptiveWallCap (walls : List Wall) : ℕ :=
  calculate_realistic_wall_count (sortByScoreDesc (structuralSurvivors walls))

/-- apply_structural_focus (lines 1009-1036). -/
def apply_structural_focus (walls : List Wall) : List Wall :=
  if walls = [] then []
  else
    let structural_walls := sortByScoreDesc (structuralSurvivors walls)
    let max_walls := calculate_realistic_wall_count structural_walls
    if structural_walls.length > max_walls then structural_walls.take max_walls
    else structural_walls

/-- Stable descending sort by confidence (lines 153 and 200). -/
def sortByConfDesc (xs : List Opening) : List Opening :=
  xs.insertionSort fun a b => b.confidence ≤ a.confidence

/-- detect_doors (lines 130-159): the results of the three door
sub-detectors (which consume the grayscale buffer through OpenCV and are
passed here as parameters) are combined, deduplicated, and capped at 20,
dropping lowest confidence first. -/
def detect_doors (door_openings door_swings door_symbols : List Opening) : List Opening :=
  let doors := filter_duplicate_doors (door_openings ++ door_swings ++ door_symbols)
  if doors.length > 20 then (sortByConfDesc doors).take 20 else doors

/-- detect_arches (lines 182-206): curved arches and wide openings combined,
deduplicated (filter_duplicate_arches delegates to filter_duplicate_doors,
line 800), and capped at 15. -/
def detect_arches (curved_arches wide_openings : List Opening) : List Opening :=
  let arches := filter_duplicate_doors (curved_arches ++ wide_openings)
  if arches.length > 15 then (sortByConfDesc arches).take 15 else arches

/-- C8 amended: door and arch counts are capped at 20 and 15; the wall count
never exceeds the adaptive cap; and the cap lies in [15, 35] whenever at
least one wall survives the 0.3 score threshold (when none survives the cap
is calculate_realistic_wall_count of the empty list, which is 0 - see the
counterexample). -/
theorem detection_caps :
    (∀ a b c : List Opening, (detect_doors a b c).length ≤ 20) ∧
      (∀ a b : List Opening, (detect_arches a b).length ≤ 15) ∧
      (∀ walls : List Wall,
        (apply_structural_focus walls).length ≤ adaptiveWallCap walls) ∧
      ∀ walls : List Wall, structuralSurvivors walls ≠ [] →
        15 ≤ adaptiveWallCap walls ∧ adaptiveWallCap walls ≤ 35 := by
  refine ⟨fun a b c => ?_, fun a b => ?_, fun walls => ?_, fun walls hne => ?_⟩
  · simp only [detect_doors]
    split
    · rw [List.length_take]; omega
    · next h => omega
  · simp only [detect_arches]
    split
    · rw [List.length_take]; omega
    · next h => omega
  · simp only [apply_structural_focus, adaptiveWallCap]
    split
    · simp
    · split
      · rw [List.length_take]; omega
      · next h => omega
  · have hlen : sortByScoreDesc (structuralSurvivors walls) ≠ [] := by
      intro hcon
      apply hne
      have := congrArg List.length hcon
      rw [sortByScoreDesc, List.length_insertionSort] at this
      exact List.length_eq_zero.mp this
    simp only [adaptiveWallCap, calculate_realistic_wall_count]
    rw [if_neg hlen]
    refine ⟨le_max_right _ _, ?_⟩
    refine max_le (le_trans (min_le_right _ _) ?_) (by norm_num)
    split_ifs <;> norm_num

/-- A strong wall: long, thick, consolidated, on the perimeter. -/
def cexStrongWall : Wall :=
  { wstart := (10, 10), wend := (410, 10), length := 400, angle := 0,
    wallType := "horizontal", confidence := 1, is_sketchy := false,
    thicknessSq := 400, source := WallSource.consolidated }

/-- Witness for detection_caps: with the single surviving wall cexStrongWall
the adaptive cap is between 15 and 35. -/
theorem detection_caps_witness :
    15 ≤ adaptiveWallCap [cexStrongWall] ∧ adaptiveWallCap [cexStrongWall] ≤ 35 :=
  detection_caps.2.2.2 [cexStrongWall]
    (by norm_num [structuralSurvivors, calculate_structural_importance,
      is_perimeter_wall, cexStrongWall, min_def])

/-- A wall whose structural score is 0.25, below the 0.3 threshold. -/
def cexLowScoreWall : Wall :=
  { wstart := (60, 60), wend := (161, 60), length := 101, angle := 0,
    wallType := "horizontal", confidence := 1/2, is_sketchy := true,
    thicknessSq := 9, source := WallSource.fuzzy_canny }

/-- C8 counterexample: on the nonempty input [cexLowScoreWall] no wall
survives the 0.3 score threshold, so the adaptive cap computed at line 1031
is calculate_realistic_wall_count([]) = 0, outside the claimed range
[15, 35]. -/
theorem adaptive_cap_out_of_range_cex :
    adaptiveWallCap [cexLowScoreWall] = 0 ∧
      ¬ 15 ≤ adaptiveWallCap [cexLowScoreWall] := by
  have hsrc : (WallSource.fuzzy_canny = WallSource.consolidated) = False :=
    eq_false fun h => WallSource.noConfusion h
  have h0 : structuralSurvivors [cexLowScoreWall] = [] := by
    norm_num [structuralSurvivors, calculate_structural_importance,
      is_perimeter_wall, cexLowScoreWall, min_def, hsrc]
  have h : adaptiveWallCap [cexLowScoreWall] = 0 := by
    simp [adaptiveWallCap, h0, sortByScoreDesc, calculate_realistic_wall_count]
  exact ⟨h, by rw [h]; norm_num⟩

/-! ## Consolidation pipeline and stage order
(lines 91-96, 863-920, 960-985, 1118-1182) -/

/-- The absorption loop of group_parallel_lines (lines 902-913): repeatedly
move every remaining line that is parallel and close to some member of the
current group into the group, until a pass absorbs nothing.  The while-loop
reaches this fixed point (the connected component of the seed); it
terminates because each absorbing pass consumes at least one remaining line,
so the length of the remaining list is sufficient fuel. -/
def absorb (fuel : ℕ) (group remaining : List Wall) : List Wall × List Wall :=
  match fuel with
  | 0 => (group, remaining)
  | fuel + 1 =>
    let p := remaining.partition fun c => group.any fun e => are_parallel_and_close e c
    if p.1.isEmpty then (group, remaining)
    else absorb fuel (group ++ p.1) p.2

/-- The outer loop of group_parallel_lines (lines 893-917): each not yet
used line seeds a group that transitively absorbs every line parallel and
close to a member; the number of seeds is at most the number of lines. -/
def groupLoop (fuel : ℕ) (lines : List Wall) : List (List Wall) :=
  match fuel, lines with
  | 0, _ => []
  | _, [] => []
  | fuel + 1, l :: ls =>
    let gr := absorb ls.length [l] ls
    gr.1 :: groupLoop fuel gr.2

/-- group_parallel_lines (lines 888-920). -/
def group_parallel_lines (lines : List Wall) : List (List Wall) :=
  groupLoop lines.length lines

/-- Python max(group, key=lambda l: length) over hd :: tl: the first element
of maximal length (line 968). -/
def maxByLength (hd : Wall) (tl : List Wall) : Wall :=
  tl.foldl (fun m c => if c.length > m.length then c else m) hd

/-- merge_collinear_segments (lines 960-985): a group of two or more lines
collapses to its longest member with confidence boosted by 1.2 (capped at
1.0) and the group-derived thickness; empty and singleton groups pass
through unchanged.  The new dictionary has no structural_score key. -/
def merge_collinear_segments : List Wall → List Wall
  | [] => []
  | [l] => [l]
  | l :: ls =>
    let main := maxByLength l ls
    [{ wstart := main.wstart, wend := main.wend, length := main.length,
       angle := main.angle, wallType := main.wallType,
       confidence := min 1 (main.confidence * (6/5)),
       is_sketchy := false,
       thicknessSq := calculate_group_thicknessSq (l :: ls),
       source := WallSource.consolidated }]

/-- calculate_wall_thickness_from_groups (lines 1005-1007): the identity. -/
def calculate_wall_thickness_from_groups (walls : List Wall) : List Wall := walls

/-- consolidate_wall_segments (lines 863-886): group parallel lines, merge
each group, run the (identity) thickness pass, then apply_structural_focus -
so scoring and capping happen here, inside consolidation. -/
def consolidate_wall_segments (line_segments : List Wall) : List Wall :=
  if line_segments = [] then []
  else
    apply_structural_focus
      (calculate_wall_thickness_from_groups
        ((group_parallel_lines line_segments).map merge_collinear_segments).flatten)

/-- The one-pass clustering of remove_text_clusters (lines 1150-1170): the
head wall seeds a cluster collecting every later wall with angle difference
below 10 and midpoint distance below 30 px (squared: 900) from the head. -/
def textClusters (fuel : ℕ) (walls : List Wall) : List (List Wall) :=
  match fuel, walls with
  | 0, _ => []
  | _, [] => []
  | fuel + 1, w :: ws =>
    let p := ws.partition fun w2 =>
      decide (|w.angle - w2.angle| < 10) && decide (wall_distanceSq w w2 < 900)
    (w :: p.1) :: textClusters fuel p.2

/-- Stable descending sort by length (line 1179). -/
def sortByLengthDesc (walls : List Wall) : List Wall :=
  walls.insertionSort fun a b => b.length ≤ a.length

/-- remove_text_clusters (lines 1144-1182): fewer than 3 walls pass through;
clusters of at most 4 walls are kept whole; larger clusters (likely text
strokes) keep only their 2 longest members. -/
def remove_text_clusters (walls : List Wall) : List Wall :=
  if walls.length < 3 then walls
  else
    ((textClusters walls.length walls).map fun cluster =>
        if cluster.length ≤ 4 then cluster
        else (sortByLengthDesc cluster).take 2).flatten

/-- apply_intelligent_filtering (lines 1118-1142): text-cluster removal,
then the strict confidence/length quality filter of line 1130, then removal
of walls in text-dense areas, then a stable sort by confidence x length
descending.  is_in_text_area (lines 1194-1221) computes a Canny edge
density over a 100x100 neighborhood through OpenCV; it is abstracted as the
oracle `inTextArea`. -/
def apply_intelligent_filtering (candidate_walls : List Wall)
    (inTextArea : Wall → Bool) : List Wall :=
  let clustered := remove_text_clusters candidate_walls
  let quality := clustered.filter fun w =>
    (decide (w.confidence > 4/5) && decide (w.length > 120)) || decide (w.length > 200)
  let filtered := quality.filter fun w => !(inTextArea w)
  filtered.insertionSort fun a b => b.confidence * b.length ≤ a.confidence * a.length

/-- Lines 91-96 of detect_walls_fuzzy: the final wall set is
apply_intelligent_filtering applied to the output of
consolidate_wall_segments. -/
def detectFinalWalls (candidate_walls : List Wall) (inTextArea : Wall → Bool) : List Wall :=
  apply_intelligent_filtering (consolidate_wall_segments candidate_walls) inTextArea

/-- The NoiseFilter as the claim describes it: removal of parallel-close
clusters of more than 4 walls keeping the 2 longest, and removal of walls
whose neighborhood is text-dense.  Modelled from the claim text, to be
compared with the pipeline order of the code. -/
def specNoiseFilter (walls : List Wall) (inTextArea : Wall → Bool) : List Wall :=
  (remove_text_clusters walls).filter fun w => !(inTextArea w)

/-- The consolidation stage without scoring, as the claim uses it. -/
def specConsolidatedWalls (walls : List Wall) : List Wall :=
  if walls = [] then []
  else ((group_parallel_lines walls).map merge_collinear_segments).flatten

/-- The final wall set as the claim describes it: scoring and capping
applied to the noise-filtered consolidated walls.  Modelled from the claim
text, to be compared with detectFinalWalls. -/
def specFinalWalls (walls : List Wall) (inTextArea : Wall → Bool) : List Wall :=
  apply_structural_focus (specNoiseFilter (specConsolidatedWalls walls) inTextArea)

/-- C1 corrected: in the code the structural scorer and adaptive cap run
inside consolidate_wall_segments (line 883), before the noise filtering of
apply_intelligent_filtering (line 95) - not after it as the claim orders the
stages.  For every candidate list and every text-area oracle, the final wall
set equals intelligent filtering (text-cluster removal, quality filter,
text-area removal, sort) applied to the already scored-and-capped
consolidated walls. -/
theorem pipeline_scores_before_noise_filter (walls : List Wall)
    (inTextArea : Wall → Bool) :
    detectFinalWalls walls inTextArea =
      apply_intelligent_filtering
        (apply_structural_focus (specConsolidatedWalls walls)) inTextArea := by
  unfold detectFinalWalls consolidate_wall_segments specConsolidatedWalls
    calculate_wall_thickness_from_groups
  split_ifs with h
  · simp [apply_structural_focus]
  · rfl

/-- A consolidation-stage candidate wall: 150 px long with confidence 0.7.
Its structural score is 0.42, above the 0.3 threshold, but it fails the
quality filter of apply_intelligent_filtering (confidence not above 0.8 and
length not above 200). -/
def cexMidWall : Wall :=
  { wstart := (100, 100), wend := (250, 100), length := 150, angle := 0,
    wallType := "horizontal", confidence := 7/10, is_sketchy := true,
    thicknessSq := 100, source := WallSource.fuzzy_canny }

/-- C1 counterexample: on the single candidate cexMidWall (with the
text-area oracle constantly false) the code returns no walls - the quality
filter drops it after scoring - while scoring-and-capping applied to the
noise-filtered consolidated walls keeps it with score 0.42.  So the final
wall set does not equal the claimed composition. -/
theorem pipeline_order_cex :
    detectFinalWalls [cexMidWall] (fun _ => false) = [] ∧
      specFinalWalls [cexMidWall] (fun _ => false) =
        [{ cexMidWall with structural_score := 21/50 }] ∧
      detectFinalWalls [cexMidWall] (fun _ => false) ≠
        specFinalWalls [cexMidWall] (fun _ => false) := by
  have hsrc : (WallSource.fuzzy_canny = WallSource.consolidated) = False :=
    eq_false fun h => WallSource.noConfusion h
  have hfocus : apply_structural_focus [cexMidWall] =
      [{ cexMidWall with structural_score := 21/50 }] := by
    norm_num [apply_structural_focus, structuralSurvivors, sortByScoreDesc,
      calculate_structural_importance, is_perimeter_wall, cexMidWall, hsrc,
      min_def, calculate_realistic_wall_count, List.insertionSort,
      List.orderedInsert]
  have hgroup : specConsolidatedWalls [cexMidWall] = [cexMidWall] := by
    norm_num [specConsolidatedWalls, group_parallel_lines, groupLoop, absorb,
      merge_collinear_segments]
  have hcons : consolidate_wall_segments [cexMidWall] =
      apply_structural_focus [cexMidWall] := by
    norm_num [consolidate_wall_segments, calculate_wall_thickness_from_groups,
      group_parallel_lines, groupLoop, absorb, merge_collinear_segments]
  have hcode : detectFinalWalls [cexMidWall] (fun _ => false) = [] := by
    unfold detectFinalWalls
    rw [hcons, hfocus]
    norm_num [apply_intelligent_filtering, remove_text_clusters, cexMidWall,
      List.insertionSort]
  have hspec : specFinalWalls [cexMidWall] (fun _ => false) =
      [{ cexMidWall with structural_score := 21/50 }] := by
    rw [specFinalWalls, hgroup]
    have hnoise : specNoiseFilter [cexMidWall] (fun _ => false) = [cexMidWall] := by
      norm_num [specNoiseFilter, remove_text_clusters]
    rw [hnoise, hfocus]
  refine ⟨hcode, hspec, ?_⟩
  rw [hcode, hspec]
  simp

/-! ## Result shape of the pipeline entry point (lines 19-128) -/

/-- The payload assembled on the success path of detect_walls_fuzzy
(lines 103-121): the values computed earlier in the try block (the wall
pipeline is modelled by detectFinalWalls and the opening detectors by
detect_doors / detect_arches). -/
structure PipelineOk where
  walls : List Wall
  doors : List Opening
  windows : List Opening
  arches : List Opening
  width : ℕ
  height : ℕ
  contrast : ℚ

/-- The dictionary returned by detect_walls_fuzzy.  The success branch
(lines 103-121) populates every key; the failure branch (lines 123-128)
carries only success, error and an empty walls list - the doors, windows,
arches, image_stats and totals keys are absent, modelled as none. -/
structure DetectResult where
  success : Bool
  error : Option String
  walls : List Wall
  doors : Option (List Opening)
  windows : Option (List Opening)
  arches : Option (List Opening)
  image_stats : Option (ℕ × ℕ × ℚ)
  totals : Option (ℕ × ℕ × ℕ × ℕ)

/-- detect_walls_fuzzy (lines 19-128) as a function of the outcome of its
try block: either the happy-path payload, or the message of the caught
exception (for example the unreadable-image ValueError raised at
line 25). -/
def detect_walls_fuzzy_result : Except String PipelineOk → DetectResult
  | Except.ok p =>
    { success := true, error := none, walls := p.walls, doors := some p.doors,
      windows := some p.windows, arches := some p.arches,
      image_stats := some (p.width, p.height, p.contrast),
      totals := some (p.walls.length, p.doors.length, p.windows.length,
        p.arches.length) }
  | Except.error e =>
    { success := false, error := some e, walls := [], doors := none,
      windows := none, arches := none, image_stats := none, totals := none }

/-- C4 counterexample: when the entry point catches an error (here the
unreadable-image message), the returned dictionary has success false and an
empty walls list, but it does NOT contain empty doors/windows/arches
collections - those keys are absent from the failure dictionary of
lines 123-128. -/
theorem failure_result_missing_collections :
    (detect_walls_fuzzy_result (Except.error "Could not read image: plan.png")).success
        = false ∧
      (detect_walls_fuzzy_result
            (Except.error "Could not read image: plan.png")).walls = [] ∧
      (detect_walls_fuzzy_result (Except.error "Could not read image: plan.png")).doors
        ≠ some [] := by
  refine ⟨rfl, rfl, ?_⟩
  simp [detect_walls_fuzzy_result]

/-- C4 amended: on a caught internal error the result has success false, the
error message, an empty walls list, and no doors/windows/arches keys at all;
on success the result has success true with all collections present (empty
collections still count as success). -/
theorem detect_result_shape (e : String) (p : PipelineOk) :
    detect_walls_fuzzy_result (Except.error e) =
        { success := false, error := some e, walls := [], doors := none,
          windows := none, arches := none, image_stats := none,
          totals := none } ∧
      (detect_walls_fuzzy_result (Except.ok p)).success = true ∧
      (detect_walls_fuzzy_result (Except.ok p)).error = none ∧
      (detect_walls_fuzzy_result (Except.ok p)).walls = p.walls ∧
      (detect_walls_fuzzy_result (Except.ok p)).doors = some p.doors ∧
      (detect_walls_fuzzy_result (Except.ok p)).windows = some p.windows ∧
      (detect_walls_fuzzy_result (Except.ok p)).arches = some p.arches :=
  ⟨rfl, rfl, rfl, rfl, rfl, rfl, rfl⟩

end FuzzyWallDetector
